import Mathlib

/-!
Verification of the libra verifying-client repository: a shallow embedding of
the trust-state ratcheting protocol, the signature-quorum verifier, the
verified transactions fetch, the JSON-RPC view layer (`views.rs`), the
`LibraVerifClient` constructor and the `verifying-cli` binary, together with
theorems settling the specification claims about them.

Cryptographic primitives (hash functions, signature schemes, LCS
serialization, UTF-8 decoding) live outside this repository; they are passed
in as function parameters, so every theorem quantifies over them.
Byte values are modelled as `Fin 256`, hashes / keys / signatures as `Nat`.
-/

/-- Error kinds of the verification protocol, from the spec's error-handling
table (section 7). -/
inductive VerifyError
| WaypointMismatch
| EpochGap
| QuorumNotMet
| UnknownSigner
| ProofVerificationFailed
| TransactionHashMismatch
| MissingNextEpochState
| DecodeError
| TransportError
deriving DecidableEq

/-- Modelled from the spec: `Waypoint` (section 3) — immutable trust anchor
binding an epoch number to the hash of the ledger commitment that epoch
produced.  The type itself is declared in `libra_types`, outside `src/`. -/
structure Waypoint where
  epoch : Nat
  commitment_hash : Nat
deriving DecidableEq

/-- Modelled from the spec: `EpochState` (section 3) — the validator set for
one epoch: a mapping validator_id to (public_key, voting_power), with the
epoch number and the total voting power.  Declared outside `src/`. -/
structure EpochState where
  epoch : Nat
  validators : List (Nat × Nat × Nat)
  total_voting_power : Nat
deriving DecidableEq

/-- Modelled from the spec: `LedgerCommitment` (section 3) — commitment to
chain state at a version; `next_epoch_state` is present only on
epoch-terminal commitments.  Declared outside `src/`
(`LedgerInfo` in `libra_types`). -/
structure LedgerCommitment where
  epoch : Nat
  version : Nat
  accumulator_root_hash : Nat
  timestamp : Nat
  next_epoch_state : Option EpochState
deriving DecidableEq

/-- Modelled from the spec: `SignedLedgerCommitment` (section 3) —
a ledger commitment plus a mapping validator_id to signature.  Declared
outside `src/` (`LedgerInfoWithSignatures` in `libra_types`). -/
structure SignedLedgerCommitment where
  commitment : LedgerCommitment
  signatures : List (Nat × Nat)
deriving DecidableEq

/-- Modelled from the spec: `EpochChangeProof` (section 3) — an ordered
chain of signed ledger commitments. -/
def EpochChangeProof := List SignedLedgerCommitment

/-- Modelled from the spec: `TrustedState` (section 4.2) — either anchored
at a waypoint (initial) or a fully verified epoch state plus ledger
commitment.  Declared outside `src/`. -/
inductive TrustedState
| anchored (wp : Waypoint)
| verified (epoch_state : EpochState) (commitment : LedgerCommitment)
deriving DecidableEq

/-- Modelled from the spec: `TrustedState::from(waypoint)` — "No
verification logic; used only as the seed for TrustedState" (section 4.1);
the seeded state is the `Anchored(Waypoint)` initial state (section 4.2). -/
def TrustedState.fromWaypoint (wp : Waypoint) : TrustedState :=
  .anchored wp

/-- The (epoch, version) pair a trusted state believes in.  An anchored
waypoint carries only an epoch in the spec's data model, so its version
component is 0. -/
def TrustedState.epochVersion : TrustedState → Nat × Nat
| .anchored wp => (wp.epoch, 0)
| .verified _ c => (c.epoch, c.version)

/-- The validator set the current state can verify signatures with:
none for an anchored waypoint, the stored epoch state otherwise. -/
def TrustedState.initialVerifier : TrustedState → Option EpochState
| .anchored _ => none
| .verified es _ => some es

/-- Strict lexicographic order on (epoch, version) pairs. -/
def evLT (a b : Nat × Nat) : Prop :=
  a.1 < b.1 ∨ (a.1 = b.1 ∧ a.2 < b.2)

/-- Lexicographic order on (epoch, version) pairs. -/
def evLE (a b : Nat × Nat) : Prop :=
  a.1 < b.1 ∨ (a.1 = b.1 ∧ a.2 ≤ b.2)

instance (a b : Nat × Nat) : Decidable (evLT a b) :=
  inferInstanceAs (Decidable (a.1 < b.1 ∨ (a.1 = b.1 ∧ a.2 < b.2)))

instance (a b : Nat × Nat) : Decidable (evLE a b) :=
  inferInstanceAs (Decidable (a.1 < b.1 ∨ (a.1 = b.1 ∧ a.2 ≤ b.2)))

/-- Look up a validator id in an epoch state's validator list, returning its
(public_key, voting_power) entry. -/
def findValidator : List (Nat × Nat × Nat) → Nat → Option (Nat × Nat)
| [], _ => none
| (vid, key, power) :: rest, id =>
    if vid = id then some (key, power) else findValidator rest id

/-- Whether every signature's validator id is present in the epoch state
("Any signature whose validator_id is absent from EpochState aborts the
whole check with UnknownSigner", section 4.3). -/
def allSignersKnown (es : EpochState) (sigs : List (Nat × Nat)) : Bool :=
  sigs.all (fun p => (findValidator es.validators p.1).isSome)

/-- Modelled from the spec: the voting-power sum of section 4.3 — "Sum
voting power of validators with a valid signature".  `validSig key digest
sig` is the external cryptographic check of one signature. -/
def sumValidPower (validSig : Nat → Nat → Nat → Bool) (digest : Nat)
    (es : EpochState) : List (Nat × Nat) → Nat
| [] => 0
| (id, sig) :: rest =>
    (match findValidator es.validators id with
     | some (key, power) => if validSig key digest sig then power else 0
     | none => 0) + sumValidPower validSig digest es rest

/-- Modelled from the spec: `SignatureQuorumVerifier` (section 4.3) — the
signature-quorum check is not under `src/`.  Abort with `UnknownSigner` if
any signature claims a validator outside the epoch state; otherwise sum the
voting power of validators with a cryptographically valid signature and
require `sum * 3 > total_voting_power * 2`, else `QuorumNotMet`. -/
def verifyQuorum (validSig : Nat → Nat → Nat → Bool)
    (digestC : LedgerCommitment → Nat)
    (es : EpochState) (slc : SignedLedgerCommitment) :
    Except VerifyError Unit :=
  if allSignersKnown es slc.signatures then
    if sumValidPower validSig (digestC slc.commitment) es slc.signatures * 3 >
        es.total_voting_power * 2
    then .ok () else .error .QuorumNotMet
  else .error .UnknownSigner

/-- Modelled from the spec: steps 1–2 of `ratchet` (section 4.2) — the check
of the proof's first element against the current trusted state.  From an
anchored waypoint the first commitment must match the waypoint's epoch and
hash (`WaypointMismatch` otherwise); from a verified state its epoch must
equal the trusted epoch (`EpochGap`) and its signatures must reach quorum
against the trusted epoch state. -/
def checkFirst (hashC : LedgerCommitment → Nat)
    (validSig : Nat → Nat → Nat → Bool) (digestC : LedgerCommitment → Nat)
    (current : TrustedState) (first : SignedLedgerCommitment) :
    Except VerifyError Unit :=
  match current with
  | .anchored wp =>
      if first.commitment.epoch = wp.epoch ∧
          hashC first.commitment = wp.commitment_hash
      then .ok () else .error .WaypointMismatch
  | .verified es _ =>
      if first.commitment.epoch = es.epoch
      then verifyQuorum validSig digestC es first
      else .error .EpochGap

/-- Modelled from the spec: step 3 of `ratchet` (section 4.2) — walk the
remaining chain.  Each hop must advance the epoch by exactly 1
(`EpochGap`), reach quorum against the former element's `next_epoch_state`
(`QuorumNotMet` / `UnknownSigner`), and every non-terminal element must
carry a `next_epoch_state` (`MissingNextEpochState`).  Returns the last
element together with the epoch state that verified it (if any). -/
def walk (validSig : Nat → Nat → Nat → Bool)
    (digestC : LedgerCommitment → Nat) :
    Option EpochState → SignedLedgerCommitment →
    List SignedLedgerCommitment →
    Except VerifyError (SignedLedgerCommitment × Option EpochState)
| verifier, prev, [] => .ok (prev, verifier)
| _, prev, next :: rest =>
    match prev.commitment.next_epoch_state with
    | none => .error .MissingNextEpochState
    | some es =>
        if next.commitment.epoch = prev.commitment.epoch + 1 then
          match verifyQuorum validSig digestC es next with
          | .ok _ => walk validSig digestC (some es) next rest
          | .error e => .error e
        else .error .EpochGap

/-- Modelled from the spec: `ratchet(current, epoch_change_proof)`
(section 4.2) — the `TrustedState` ratcheting operation is not under
`src/`.  Steps: check the first element against the current state, walk the
remaining chain, and if the final resolved (epoch, version) is less than or
equal to `current`'s return the unchanged `current` state (idempotent
no-op), otherwise return the new `Verified` state built from the final
commitment and the final epoch state (the last commitment's
`next_epoch_state`, or unchanged the one that verified it).  The spec
presumes a non-empty proof chain; an empty proof resolves nothing and is
rejected. -/
def ratchet (hashC : LedgerCommitment → Nat)
    (validSig : Nat → Nat → Nat → Bool) (digestC : LedgerCommitment → Nat)
    (current : TrustedState) (proof : List SignedLedgerCommitment) :
    Except VerifyError TrustedState :=
  match proof with
  | [] => .error .EpochGap
  | first :: rest =>
    match checkFirst hashC validSig digestC current first with
    | .error e => .error e
    | .ok _ =>
      match walk validSig digestC current.initialVerifier first rest with
      | .error e => .error e
      | .ok (last, verifier) =>
        if evLT (last.commitment.epoch, last.commitment.version)
              current.epochVersion ∨
            (last.commitment.epoch, last.commitment.version) =
              current.epochVersion then
          .ok current
        else
          match last.commitment.next_epoch_state with
          | some es => .ok (.verified es last.commitment)
          | none =>
            match verifier with
            | some es => .ok (.verified es last.commitment)
            | none => .error .MissingNextEpochState

/-- Modelled from the spec: `TransactionCommitment` (section 3) — the
per-transaction leaf commitment (`TransactionInfo` in `libra_types`,
outside `src/`). -/
structure TransactionCommitment where
  transaction_hash : Nat
  state_root_hash : Nat
  event_root_hash : Nat
  gas_used : Nat
  status : Nat
deriving DecidableEq

/-- Modelled from the spec: `AccumulatorRangeProof` (section 3) — sibling
hash list, first index and count of the claimed leaf range. -/
structure AccumulatorRangeProof where
  siblings : List Nat
  first_index : Nat
  count : Nat
deriving DecidableEq

/-- Modelled from the spec: step 4 of the verified call (sections 4.4,
4.5) — verify the accumulator range proof: the recomputed root (the MMR
recomputation `recompute` is the external accumulator algorithm) must equal
the trusted `accumulator_root_hash`; mismatch yields
`ProofVerificationFailed`. -/
def verifyRangeProof (recompute : Nat → List Nat → AccumulatorRangeProof → Option Nat)
    (root : Nat) (leaves : List Nat) (proof : AccumulatorRangeProof) :
    Except VerifyError Unit :=
  if recompute proof.first_index leaves proof = some root
  then .ok () else .error .ProofVerificationFailed

/-- Modelled from the spec: step 5 of the verified call (section 4.5) —
"For each returned transaction body, recompute its hash and compare to the
corresponding `TransactionCommitment.transaction_hash` (mismatch →
`TransactionHashMismatch`)". -/
def verifyTxnHashes {α : Type} (hashTxn : α → Nat) :
    List α → List TransactionCommitment → Except VerifyError Unit
| [], [] => .ok ()
| t :: ts, c :: cs =>
    if hashTxn t = c.transaction_hash
    then verifyTxnHashes hashTxn ts cs
    else .error .TransactionHashMismatch
| _ :: _, [] => .error .TransactionHashMismatch
| [], _ :: _ => .error .TransactionHashMismatch

/-- Modelled from the spec: the verification tail of a
`get_transactions_with_proofs` verified call (section 4.5, steps 4–6) —
the `VerifyingClient` fetch pipeline is not under `src/`.  The accumulator
range proof over the hashed transaction commitments must recompute to the
trusted root, each returned transaction body must hash to the
corresponding commitment's `transaction_hash`, and only then is the
verified data released. -/
def verifiedTxFetch {α : Type} (hashTxn : α → Nat)
    (hashCommit : TransactionCommitment → Nat)
    (recompute : Nat → List Nat → AccumulatorRangeProof → Option Nat)
    (root : Nat) (txns : List α) (commitments : List TransactionCommitment)
    (proof : AccumulatorRangeProof) : Except VerifyError (List α) :=
  match verifyRangeProof recompute root (commitments.map hashCommit) proof with
  | .error e => .error e
  | .ok _ =>
    match verifyTxnHashes hashTxn txns commitments with
    | .error e => .error e
    | .ok _ => .ok txns

/-- One hexadecimal digit character, lowercase, as produced by
`hex::encode`. -/
def hexDigitChar (n : Nat) : Char :=
  if n < 10 then Char.ofNat (48 + n) else Char.ofNat (87 + n)

/-- The two lowercase hex characters of one byte. -/
def byteToHex (b : Fin 256) : List Char :=
  [hexDigitChar (b.val / 16), hexDigitChar (b.val % 16)]

/-- `hex::encode`: the lowercase hexadecimal string of a byte vector. -/
def hexEncode (bs : List (Fin 256)) : String :=
  ⟨bs.flatMap byteToHex⟩

/-- The value of one hex digit character; accepts lowercase and uppercase,
as `hex::decode` does. -/
def hexCharVal (c : Char) : Option (Fin 16) :=
  if h : 48 ≤ c.toNat ∧ c.toNat ≤ 57 then some ⟨c.toNat - 48, by omega⟩
  else if h : 97 ≤ c.toNat ∧ c.toNat ≤ 102 then some ⟨c.toNat - 87, by omega⟩
  else if h : 65 ≤ c.toNat ∧ c.toNat ≤ 70 then some ⟨c.toNat - 55, by omega⟩
  else none

/-- A byte from its two hex-digit values. -/
def mkByte (h l : Fin 16) : Fin 256 :=
  ⟨h.val * 16 + l.val, by omega⟩

/-- `hex::decode` on a character list: parse pairs of hex digits; odd
length or a non-hex character fails. -/
def hexDecodeChars : List Char → Option (List (Fin 256))
| [] => some []
| [_] => none
| hi :: lo :: rest =>
    match hexCharVal hi, hexCharVal lo, hexDecodeChars rest with
    | some h, some l, some bs => some (mkByte h l :: bs)
    | _, _, _ => none

/-- `hex::decode` on a string. -/
def hexDecode (s : String) : Option (List (Fin 256)) :=
  hexDecodeChars s.data

/-- `BytesView` (`views.rs` line 357): a tuple struct holding the hex
string encoding of a byte vector. -/
structure BytesView where
  val : String
deriving DecidableEq

/-- `BytesView::from` (`views.rs` lines 365–381): all three `From` impls
hex-encode the bytes. -/
def BytesView.fromBytes (bytes : List (Fin 256)) : BytesView :=
  ⟨hexEncode bytes⟩

/-- `BytesView::into_bytes` (`views.rs` lines 360–362): hex-decode the
stored string. -/
def BytesView.into_bytes (v : BytesView) : Option (List (Fin 256)) :=
  hexDecode v.val

/-- `StateProofView` (`views.rs` lines 722–727). -/
structure StateProofView where
  ledger_info_with_signatures : BytesView
  epoch_change_proof : BytesView
  ledger_consistency_proof : BytesView
deriving DecidableEq

/-- `StateProofView::try_from` (`views.rs` lines 729–753): LCS-serialize
the ledger info with signatures, the epoch change proof and the
consistency proof in that order (each `?` propagates a serialization
failure) and hex-encode each result.  The LCS serializers live in the
`lcs` crate, outside `src/`, and are passed in as parameters. -/
def StateProofView.tryFrom {α β γ : Type}
    (serLi : α → Option (List (Fin 256)))
    (serEcp : β → Option (List (Fin 256)))
    (serCp : γ → Option (List (Fin 256)))
    (ledger_info_with_signatures : α) (epoch_change_proof : β)
    (ledger_consistency_proof : γ) : Option StateProofView :=
  match serLi ledger_info_with_signatures with
  | none => none
  | some a =>
    match serEcp epoch_change_proof with
    | none => none
    | some b =>
      match serCp ledger_consistency_proof with
      | none => none
      | some c =>
        some ⟨BytesView.fromBytes a, BytesView.fromBytes b, BytesView.fromBytes c⟩

/-- `TransactionsProofsView` (`views.rs` lines 476–480). -/
structure TransactionsProofsView where
  ledger_info_to_transaction_infos_proof : BytesView
  transaction_infos : BytesView
deriving DecidableEq

/-- `TransactionsWithProofsView` (`views.rs` lines 468–474). -/
structure TransactionsWithProofsView where
  first_transaction_version : Option Nat
  serialized_transactions : List BytesView
  ledger_info : BytesView
  proofs : TransactionsProofsView
deriving DecidableEq

/-- Modelled from the spec: the server's `get_transactions_with_proofs`
response (section 6) — the server handler is not under `src/`; only the
response type and the integration test consuming it are.  All binary
fields are hex-encoded canonical byte serializations; the optional
`first_transaction_version` reports the version of the first returned
transaction, which is the requested `base_version` (as the integration
test asserts, `integration_test.rs` line 769). -/
def getTransactionsWithProofsResponse {τ α π ι : Type}
    (serTx : τ → List (Fin 256)) (serLi : α → List (Fin 256))
    (serProof : π → List (Fin 256)) (serInfos : ι → List (Fin 256))
    (base_version : Nat) (txs : List τ) (li : α)
    (rangeProof : π) (infos : ι) : TransactionsWithProofsView :=
  { first_transaction_version := some base_version
    serialized_transactions := txs.map (fun t => BytesView.fromBytes (serTx t))
    ledger_info := BytesView.fromBytes (serLi li)
    proofs := ⟨BytesView.fromBytes (serProof rangeProof),
               BytesView.fromBytes (serInfos infos)⟩ }

/-- Modelled from the spec: `JsonRpcClient` — the JSON-RPC transport
(external collaborator, section 1); only the connection URL matters
here. -/
structure JsonRpcClient where
  url : String
deriving DecidableEq

/-- `LibraVerifClient` (`libra_verif_client.rs` lines 4–12): the JSON-RPC
client, the latest verified chain state, and the most recent epoch change
ledger info (`None` until the first ratchet from the waypoint). -/
structure LibraVerifClient where
  client : JsonRpcClient
  trusted_state : TrustedState
  latest_epoch_change_li : Option SignedLedgerCommitment
deriving DecidableEq

/-- `LibraVerifClient::new` (`libra_verif_client.rs` lines 16–24): seed the
trusted state from the waypoint, construct the JSON-RPC client (the
fallible constructor `mkClient` is external, passed as a parameter; its
failure propagates), and return the assembled client. -/
def LibraVerifClient.new (mkClient : String → Option JsonRpcClient)
    (url : String) (waypoint : Waypoint) : Option LibraVerifClient :=
  let initial_trusted_state := TrustedState.fromWaypoint waypoint
  match mkClient url with
  | none => none
  | some client =>
    some { client := client
           trusted_state := initial_trusted_state
           latest_epoch_change_li := none }

/-- The parsed command-line arguments of the verifying client binary
(`main.rs` lines 20–31): a required `--url` string and an optional
`--waypoint`. -/
structure Args where
  url : String
  waypoint : Option Waypoint
deriving DecidableEq

/-- The block metadata returned by `test_validator_connection`
(`main.rs` lines 53–66): the fields the binary prints. -/
structure BlockMetadata where
  version : Nat
  timestamp : Nat
deriving DecidableEq

/-- The places where `main` can panic (`main.rs`): unwrapping the absent
waypoint (line 35), `expect` on client construction (line 50), and the
`panic!` closure on a failed validator connection (lines 55–60). -/
inductive PanicPoint
| unwrapWaypoint
| clientConstruction
| validatorConnection
deriving DecidableEq

/-- The lines `main` prints, in order (`main.rs` lines 36–85), abstracted
to their identity and the data they interpolate. -/
inductive OutputLine
| workingOn (url : String) (wp : Waypoint)
| proofsValidated
| proofsNotValidated
| chainIdLine
| trustedStateLine
| ledgerInfoLine
| cliInfo (url : String) (version : Nat) (timestamp : Nat)
deriving DecidableEq

/-- The observable outcome of running `main`: a panic (process aborts with
a nonzero status) at some point with the lines printed so far, or a normal
return from `main` (process exit status 0) with all printed lines. -/
inductive MainOutcome
| panicked (point : PanicPoint) (printed : List OutputLine)
| exited (code : Nat) (printed : List OutputLine)
deriving DecidableEq

/-- The remote world the binary talks to, as main observes it: whether
`ClientProxy::new` succeeds, the result of `test_validator_connection`,
and whether `test_trusted_connection` (fetch the latest state proof and
ratchet from the waypoint) returns `Ok`. -/
structure RemoteEnv where
  clientProxyNew : Bool
  validatorConnection : Option BlockMetadata
  trustedConnectionOk : Bool
deriving DecidableEq

/-- `main` (`main.rs` lines 33–87): unwrap the optional waypoint (panic if
absent, before any connection), print the URL and waypoint, construct the
client proxy (`expect` panics on failure), test the validator connection
(panic on failure), run the trusted-connection check (fetch latest state
proof and ratchet), print "Proofs validated" or "Proofs did not validate"
accordingly, print the chain id, trusted state, ledger info and CLI info,
and return normally — the exit status is 0 on every non-panicking path. -/
def mainRun (args : Args) (env : RemoteEnv) : MainOutcome :=
  match args.waypoint with
  | none => .panicked .unwrapWaypoint []
  | some wp =>
    let out0 := [OutputLine.workingOn args.url wp]
    if env.clientProxyNew = false then .panicked .clientConstruction out0
    else
      match env.validatorConnection with
      | none => .panicked .validatorConnection out0
      | some bm =>
        let verdict := if env.trustedConnectionOk then OutputLine.proofsValidated
                       else OutputLine.proofsNotValidated
        .exited 0 (out0 ++ [verdict, .chainIdLine, .trustedStateLine,
                            .ledgerInfoLine, .cliInfo args.url bm.version bm.timestamp])

/-- The type tag of a contract event: one of the fourteen known event
struct tags compared against in `EventDataView::try_from` (`views.rs`
lines 207–319), or any other tag (`other`). -/
inductive EventTypeTag
| receivedPayment
| sentPayment
| preburnTag
| burnTag
| cancelBurnTag
| toLBRExchangeRateUpdate
| mintTag
| receivedMint
| complianceKeyRotation
| baseUrlRotation
| newBlock
| newEpoch
| createAccount
| upgradeTag
| other (n : Nat)
deriving DecidableEq

/-- Parsed payload of a `ReceivedPaymentEvent` (external
`libra_types::account_config` parser). -/
structure ReceivedPaymentEventData where
  amount : Nat
  currency_code : String
  sender : List (Fin 256)
  metadata : List (Fin 256)
deriving DecidableEq

/-- Parsed payload of a `SentPaymentEvent`. -/
structure SentPaymentEventData where
  amount : Nat
  currency_code : String
  receiver : List (Fin 256)
  metadata : List (Fin 256)
deriving DecidableEq

/-- Parsed payload of a `PreburnEvent`, `BurnEvent` or `CancelBurnEvent`:
an amount, a currency code and a preburn address. -/
structure PreburnLikeEventData where
  amount : Nat
  currency_code : String
  preburn_address : List (Fin 256)
deriving DecidableEq

/-- Parsed payload of a `ToLBRExchangeRateUpdateEvent`; the `f32` exchange
rate is carried as its bit pattern. -/
structure ToLBRExchangeRateUpdateEventData where
  currency_code : String
  new_to_lbr_exchange_rate : Nat
deriving DecidableEq

/-- Parsed payload of a `MintEvent`. -/
structure MintEventData where
  amount : Nat
  currency_code : String
deriving DecidableEq

/-- Parsed payload of a `ReceivedMintEvent`. -/
structure ReceivedMintEventData where
  amount : Nat
  currency_code : String
  destination_address : List (Fin 256)
deriving DecidableEq

/-- Parsed payload of a `ComplianceKeyRotationEvent`. -/
structure ComplianceKeyRotationEventData where
  new_compliance_public_key : List (Fin 256)
  time_rotated_seconds : Nat
deriving DecidableEq

/-- Parsed payload of a `BaseUrlRotationEvent`; `new_base_url` is a raw
byte vector, decoded to UTF-8 by the view conversion. -/
structure BaseUrlRotationEventData where
  new_base_url : List (Fin 256)
  time_rotated_seconds : Nat
deriving DecidableEq

/-- Parsed payload of a `NewBlockEvent`. -/
structure NewBlockEventData where
  round : Nat
  proposer : List (Fin 256)
  proposed_time : Nat
deriving DecidableEq

/-- Parsed payload of a `NewEpochEvent`. -/
structure NewEpochEventData where
  epoch : Nat
deriving DecidableEq

/-- Parsed payload of a `CreateAccountEvent`. -/
structure CreateAccountEventData where
  created : List (Fin 256)
  role_id : Nat
deriving DecidableEq

/-- Parsed payload of an `UpgradeEvent`. -/
structure UpgradeEventData where
  write_set : List (Fin 256)
deriving DecidableEq

/-- A contract event as `EventDataView::try_from` consumes it: its type
tag, the creator address of its event key (used by the payment views), and
the outcome of each external `libra_types` payload parser
(`X::try_from(&event)`), `none` meaning that parser fails on this
event. -/
structure ContractEvent where
  type_tag : EventTypeTag
  key_creator_address : List (Fin 256)
  parseReceivedPayment : Option ReceivedPaymentEventData
  parseSentPayment : Option SentPaymentEventData
  parsePreburn : Option PreburnLikeEventData
  parseBurn : Option PreburnLikeEventData
  parseCancelBurn : Option PreburnLikeEventData
  parseToLBRExchangeRateUpdate : Option ToLBRExchangeRateUpdateEventData
  parseMint : Option MintEventData
  parseReceivedMint : Option ReceivedMintEventData
  parseComplianceKeyRotation : Option ComplianceKeyRotationEventData
  parseBaseUrlRotation : Option BaseUrlRotationEventData
  parseNewBlock : Option NewBlockEventData
  parseNewEpoch : Option NewEpochEventData
  parseCreateAccount : Option CreateAccountEventData
  parseUpgrade : Option UpgradeEventData
deriving DecidableEq

/-- `AmountView` (`views.rs` lines 36–39). -/
structure AmountView where
  amount : Nat
  currency : String
deriving DecidableEq

/-- `EventDataView` (`views.rs` lines 130–201): the closed sum of event
view variants.  The `f32` exchange rate is carried as its bit pattern. -/
inductive EventDataView
| burn (amount : AmountView) (preburn_address : BytesView)
| cancelBurn (amount : AmountView) (preburn_address : BytesView)
| mint (amount : AmountView)
| toLBRExchangeRateUpdate (currency_code : String) (new_to_lbr_exchange_rate : Nat)
| preburn (amount : AmountView) (preburn_address : BytesView)
| receivedPayment (amount : AmountView) (sender : BytesView)
    (receiver : BytesView) (metadata : BytesView)
| sentPayment (amount : AmountView) (receiver : BytesView)
    (sender : BytesView) (metadata : BytesView)
| upgrade (write_set : BytesView)
| newEpoch (epoch : Nat)
| newBlock (round : Nat) (proposer : BytesView) (proposed_time : Nat)
| receivedMint (amount : AmountView) (destination_address : BytesView)
| complianceKeyRotation (new_compliance_public_key : String)
    (time_rotated_seconds : Nat)
| baseUrlRotation (new_base_url : String) (time_rotated_seconds : Nat)
| createAccount (created_address : BytesView) (role_id : Nat)
| unknown
deriving DecidableEq

/-- `EventDataView::try_from` (`views.rs` lines 203–331): an if/else chain
comparing the event's type tag against each known event struct tag (all
distinct, hence a case analysis); on a match, run that event's payload
parser (`?` propagates its failure) and build the view; on
`BaseUrlRotationEvent` additionally decode `new_base_url` as UTF-8 (the
external decoder `utf8` is a parameter), failing if it is not valid; with
no matching tag, succeed with `Unknown {}`. -/
def EventDataView.tryFrom (utf8 : List (Fin 256) → Option String)
    (event : ContractEvent) : Option EventDataView :=
  match event.type_tag with
  | .receivedPayment =>
      event.parseReceivedPayment.map (fun d =>
        .receivedPayment ⟨d.amount, d.currency_code⟩
          (BytesView.fromBytes d.sender)
          (BytesView.fromBytes event.key_creator_address)
          (BytesView.fromBytes d.metadata))
  | .sentPayment =>
      event.parseSentPayment.map (fun d =>
        .sentPayment ⟨d.amount, d.currency_code⟩
          (BytesView.fromBytes d.receiver)
          (BytesView.fromBytes event.key_creator_address)
          (BytesView.fromBytes d.metadata))
  | .preburnTag =>
      event.parsePreburn.map (fun d =>
        .preburn ⟨d.amount, d.currency_code⟩ (BytesView.fromBytes d.preburn_address))
  | .burnTag =>
      event.parseBurn.map (fun d =>
        .burn ⟨d.amount, d.currency_code⟩ (BytesView.fromBytes d.preburn_address))
  | .cancelBurnTag =>
      event.parseCancelBurn.map (fun d =>
        .cancelBurn ⟨d.amount, d.currency_code⟩ (BytesView.fromBytes d.preburn_address))
  | .toLBRExchangeRateUpdate =>
      event.parseToLBRExchangeRateUpdate.map (fun d =>
        .toLBRExchangeRateUpdate d.currency_code d.new_to_lbr_exchange_rate)
  | .mintTag =>
      event.parseMint.map (fun d => .mint ⟨d.amount, d.currency_code⟩)
  | .receivedMint =>
      event.parseReceivedMint.map (fun d =>
        .receivedMint ⟨d.amount, d.currency_code⟩
          (BytesView.fromBytes d.destination_address))
  | .complianceKeyRotation =>
      event.parseComplianceKeyRotation.map (fun d =>
        .complianceKeyRotation (hexEncode d.new_compliance_public_key)
          d.time_rotated_seconds)
  | .baseUrlRotation =>
      match event.parseBaseUrlRotation with
      | none => none
      | some d =>
        (utf8 d.new_base_url).map (fun s =>
          .baseUrlRotation s d.time_rotated_seconds)
  | .newBlock =>
      event.parseNewBlock.map (fun d =>
        .newBlock d.round (BytesView.fromBytes d.proposer) d.proposed_time)
  | .newEpoch =>
      event.parseNewEpoch.map (fun d => .newEpoch d.epoch)
  | .createAccount =>
      event.parseCreateAccount.map (fun d =>
        .createAccount (BytesView.fromBytes d.created) d.role_id)
  | .upgradeTag =>
      event.parseUpgrade.map (fun d => .upgrade (BytesView.fromBytes d.write_set))
  | .other _ => some .unknown

/-- Whether a type tag is one of the fourteen known event struct tags of
`EventDataView::try_from`. -/
def recognizedTag : EventTypeTag → Bool
| .other _ => false
| _ => true

/-- The ways the payload of a recognized event can fail to parse in
`EventDataView::try_from`: its external parser fails, or — for a
`BaseUrlRotationEvent` — the parsed `new_base_url` is not valid UTF-8. -/
def payloadParseFails (utf8 : List (Fin 256) → Option String)
    (event : ContractEvent) : Prop :=
  match event.type_tag with
  | .receivedPayment => event.parseReceivedPayment = none
  | .sentPayment => event.parseSentPayment = none
  | .preburnTag => event.parsePreburn = none
  | .burnTag => event.parseBurn = none
  | .cancelBurnTag => event.parseCancelBurn = none
  | .toLBRExchangeRateUpdate => event.parseToLBRExchangeRateUpdate = none
  | .mintTag => event.parseMint = none
  | .receivedMint => event.parseReceivedMint = none
  | .complianceKeyRotation => event.parseComplianceKeyRotation = none
  | .baseUrlRotation =>
      event.parseBaseUrlRotation = none ∨
      ∃ d, event.parseBaseUrlRotation = some d ∧ utf8 d.new_base_url = none
  | .newBlock => event.parseNewBlock = none
  | .newEpoch => event.parseNewEpoch = none
  | .createAccount => event.parseCreateAccount = none
  | .upgradeTag => event.parseUpgrade = none
  | .other _ => False

/-! ## Helper lemmas -/

theorem evLE_refl (a : Nat × Nat) : evLE a a :=
  Or.inr ⟨rfl, Nat.le_refl _⟩

theorem evLE_iff_lt_or_eq (a b : Nat × Nat) :
    evLE a b ↔ (evLT a b ∨ a = b) := by
  obtain ⟨a1, a2⟩ := a
  obtain ⟨b1, b2⟩ := b
  simp only [evLE, evLT, Prod.mk.injEq]
  omega

theorem evLE_flip_of_not_lt_or_eq {a b : Nat × Nat}
    (h : ¬(evLT a b ∨ a = b)) : evLE b a := by
  obtain ⟨a1, a2⟩ := a
  obtain ⟨b1, b2⟩ := b
  simp only [evLE, evLT, Prod.mk.injEq] at *
  omega

/-- C1: for every current TrustedState and every epoch change proof, a
successful ratchet never decreases the trusted (epoch, version); and when
the proof's chain checks pass and resolve to an (epoch, version) equal to
or less than the current one, ratchet returns the unchanged current state
as a success (idempotent no-op), not an error. -/
theorem claim_ratchet_monotone_idempotent :
    (∀ (hashC : LedgerCommitment → Nat) (validSig : Nat → Nat → Nat → Bool)
       (digestC : LedgerCommitment → Nat) (current : TrustedState)
       (proof : List SignedLedgerCommitment) (ts' : TrustedState),
       ratchet hashC validSig digestC current proof = .ok ts' →
       evLE current.epochVersion ts'.epochVersion) ∧
    (∀ (hashC : LedgerCommitment → Nat) (validSig : Nat → Nat → Nat → Bool)
       (digestC : LedgerCommitment → Nat) (current : TrustedState)
       (first : SignedLedgerCommitment) (rest : List SignedLedgerCommitment)
       (last : SignedLedgerCommitment) (verifier : Option EpochState),
       checkFirst hashC validSig digestC current first = .ok () →
       walk validSig digestC current.initialVerifier first rest =
         .ok (last, verifier) →
       evLE (last.commitment.epoch, last.commitment.version)
         current.epochVersion →
       ratchet hashC validSig digestC current (first :: rest) =
         .ok current) := by
  constructor
  · intro hashC validSig digestC current proof ts' h
    match proof with
    | [] => exact Except.noConfusion h
    | first :: rest =>
      simp only [ratchet] at h
      split at h
      · exact Except.noConfusion h
      · split at h
        · exact Except.noConfusion h
        · rename_i last verifier heq
          split at h
          · rename_i hcond
            injection h with h
            subst h
            exact evLE_refl _
          · rename_i hcond
            have hle := evLE_flip_of_not_lt_or_eq hcond
            split at h
            · injection h with h
              subst h
              exact hle
            · split at h
              · injection h with h
                subst h
                exact hle
              · exact Except.noConfusion h
  · intro hashC validSig digestC current first rest last verifier hcf hwalk hle
    simp only [ratchet, hcf, hwalk]
    rw [if_pos ((evLE_iff_lt_or_eq _ _).mp hle)]

/-- C1 witness: a concrete anchored state ratchets forward to (epoch 0,
version 1) without decreasing, and a proof re-proving the already-trusted
(epoch 2, version 0) is a successful no-op. -/
theorem claim_ratchet_monotone_idempotent_witness :
    evLE (TrustedState.anchored ⟨0, 0⟩).epochVersion
      (TrustedState.verified ⟨1, [(0, 0, 1)], 1⟩
        ⟨0, 1, 0, 0, some ⟨1, [(0, 0, 1)], 1⟩⟩).epochVersion ∧
    ratchet (fun _ => 0) (fun _ _ _ => true) (fun _ => 0)
      (.anchored ⟨2, 0⟩) [⟨⟨2, 0, 0, 0, none⟩, []⟩] =
      .ok (.anchored ⟨2, 0⟩) :=
  ⟨claim_ratchet_monotone_idempotent.1 (fun _ => 0) (fun _ _ _ => true)
      (fun _ => 0) (.anchored ⟨0, 0⟩)
      [⟨⟨0, 1, 0, 0, some ⟨1, [(0, 0, 1)], 1⟩⟩, []⟩]
      (.verified ⟨1, [(0, 0, 1)], 1⟩ ⟨0, 1, 0, 0, some ⟨1, [(0, 0, 1)], 1⟩⟩)
      (by rfl),
   claim_ratchet_monotone_idempotent.2 (fun _ => 0) (fun _ _ _ => true)
      (fun _ => 0) (.anchored ⟨2, 0⟩) ⟨⟨2, 0, 0, 0, none⟩, []⟩ []
      ⟨⟨2, 0, 0, 0, none⟩, []⟩ none (by rfl) (by rfl) (by decide)⟩

/-- C2 counterexample: an epoch state with one validator (id 0, power 3,
total 3) and a signed commitment carrying a valid signature from id 0 plus
a signature from the unknown id 1.  The summed voting power of validators
with a valid signature is 3, and 3 * 3 > 3 * 2, yet the check rejects with
`UnknownSigner` — so acceptance is not equivalent to the threshold.
With only the unknown signer the valid power is 0 ≤ 2/3 of the total, yet
the rejection is `UnknownSigner`, not `QuorumNotMet`. -/
theorem claim_quorum_iff_counterexample :
    sumValidPower (fun _ _ _ => true) 0 ⟨1, [(0, 0, 3)], 3⟩
        [(0, 5), (1, 5)] * 3 > (3 : Nat) * 2 ∧
    verifyQuorum (fun _ _ _ => true) (fun _ => 0) ⟨1, [(0, 0, 3)], 3⟩
        ⟨⟨1, 0, 0, 0, none⟩, [(0, 5), (1, 5)]⟩ = .error .UnknownSigner ∧
    sumValidPower (fun _ _ _ => true) 0 ⟨1, [(0, 0, 3)], 3⟩
        [(1, 5)] * 3 ≤ (3 : Nat) * 2 ∧
    verifyQuorum (fun _ _ _ => true) (fun _ => 0) ⟨1, [(0, 0, 3)], 3⟩
        ⟨⟨1, 0, 0, 0, none⟩, [(1, 5)]⟩ = .error .UnknownSigner :=
  ⟨by decide, rfl, by decide, rfl⟩

/-- C2 (amended): quorum verification accepts a signed ledger commitment if
and only if every signature's validator is in the epoch state AND the
summed voting power of validators with a cryptographically valid signature
satisfies sum * 3 > total_voting_power * 2; and when all signers are known,
a commitment whose valid signers total at most 2/3 of the total voting
power is rejected with `QuorumNotMet`. -/
theorem claim_quorum_threshold_amended :
    (∀ (validSig : Nat → Nat → Nat → Bool) (digestC : LedgerCommitment → Nat)
       (es : EpochState) (slc : SignedLedgerCommitment),
       verifyQuorum validSig digestC es slc = .ok () ↔
         (allSignersKnown es slc.signatures = true ∧
          sumValidPower validSig (digestC slc.commitment) es slc.signatures * 3 >
            es.total_voting_power * 2)) ∧
    (∀ (validSig : Nat → Nat → Nat → Bool) (digestC : LedgerCommitment → Nat)
       (es : EpochState) (slc : SignedLedgerCommitment),
       allSignersKnown es slc.signatures = true →
       sumValidPower validSig (digestC slc.commitment) es slc.signatures * 3 ≤
         es.total_voting_power * 2 →
       verifyQuorum validSig digestC es slc = .error .QuorumNotMet) := by
  constructor
  · intro validSig digestC es slc
    unfold verifyQuorum
    by_cases hk : allSignersKnown es slc.signatures
    · rw [if_pos hk]
      by_cases hs : sumValidPower validSig (digestC slc.commitment) es
          slc.signatures * 3 > es.total_voting_power * 2
      · rw [if_pos hs]
        simp [hk, hs]
      · rw [if_neg hs]
        simp [hk, hs]
    · rw [if_neg hk]
      simp [hk]
  · intro validSig digestC es slc hk hs
    unfold verifyQuorum
    rw [if_pos hk, if_neg (by omega)]

/-- C2 witness: a known signer with full power and a valid signature is
accepted; with an always-failing signature scheme the same commitment is
rejected with `QuorumNotMet`. -/
theorem claim_quorum_threshold_amended_witness :
    verifyQuorum (fun _ _ _ => true) (fun _ => 0) ⟨1, [(0, 0, 3)], 3⟩
        ⟨⟨1, 0, 0, 0, none⟩, [(0, 5)]⟩ = .ok () ∧
    verifyQuorum (fun _ _ _ => false) (fun _ => 0) ⟨1, [(0, 0, 3)], 3⟩
        ⟨⟨1, 0, 0, 0, none⟩, [(0, 5)]⟩ = .error .QuorumNotMet :=
  ⟨(claim_quorum_threshold_amended.1 (fun _ _ _ => true) (fun _ => 0)
      ⟨1, [(0, 0, 3)], 3⟩ ⟨⟨1, 0, 0, 0, none⟩, [(0, 5)]⟩).mpr
      ⟨by decide, by decide⟩,
   claim_quorum_threshold_amended.2 (fun _ _ _ => false) (fun _ => 0)
      ⟨1, [(0, 0, 3)], 3⟩ ⟨⟨1, 0, 0, 0, none⟩, [(0, 5)]⟩ (by decide) (by decide)⟩

theorem verifyTxnHashes_ok_iff {α : Type} (hashTxn : α → Nat) :
    ∀ (ts : List α) (cs : List TransactionCommitment),
    verifyTxnHashes hashTxn ts cs = .ok () ↔
      (ts.length = cs.length ∧
       ∀ p ∈ ts.zip cs, hashTxn p.1 = p.2.transaction_hash)
| [], [] => by simp [verifyTxnHashes]
| [], _ :: _ => by simp [verifyTxnHashes]
| _ :: _, [] => by simp [verifyTxnHashes]
| t :: ts, c :: cs => by
    simp only [verifyTxnHashes, List.zip_cons_cons, List.mem_cons,
      List.length_cons]
    by_cases h : hashTxn t = c.transaction_hash
    · rw [if_pos h, verifyTxnHashes_ok_iff hashTxn ts cs]
      constructor
      · rintro ⟨hl, hp⟩
        refine ⟨by omega, ?_⟩
        rintro p (rfl | hm)
        · exact h
        · exact hp p hm
      · rintro ⟨hl, hp⟩
        exact ⟨by omega, fun p hm => hp p (Or.inr hm)⟩
    · rw [if_neg h]
      constructor
      · intro hc
        exact Except.noConfusion hc
      · rintro ⟨hl, hp⟩
        exact absurd (hp (t, c) (Or.inl rfl)) h

theorem verifyTxnHashes_ok_or_mismatch {α : Type} (hashTxn : α → Nat) :
    ∀ (ts : List α) (cs : List TransactionCommitment),
    verifyTxnHashes hashTxn ts cs = .ok () ∨
      verifyTxnHashes hashTxn ts cs = .error .TransactionHashMismatch
| [], [] => Or.inl rfl
| [], _ :: _ => Or.inr rfl
| _ :: _, [] => Or.inr rfl
| t :: ts, c :: cs => by
    simp only [verifyTxnHashes]
    by_cases h : hashTxn t = c.transaction_hash
    · rw [if_pos h]
      exact verifyTxnHashes_ok_or_mismatch hashTxn ts cs
    · rw [if_neg h]
      exact Or.inr rfl

/-- C3: a verified transactions fetch succeeds only if every returned
transaction body hashes to the transaction_hash of the corresponding proven
transaction commitment and the accumulator range proof over the commitment
hashes recomputes to the trusted root; a root mismatch yields
`ProofVerificationFailed`, and a body-hash mismatch (with the root proof
passing) yields `TransactionHashMismatch`. -/
theorem claim_verified_fetch_checks :
    (∀ (α : Type) (hashTxn : α → Nat)
       (hashCommit : TransactionCommitment → Nat)
       (recompute : Nat → List Nat → AccumulatorRangeProof → Option Nat)
       (root : Nat) (txns : List α)
       (commitments : List TransactionCommitment)
       (proof : AccumulatorRangeProof) (out : List α),
       verifiedTxFetch hashTxn hashCommit recompute root txns commitments
         proof = .ok out →
       out = txns ∧
       recompute proof.first_index (commitments.map hashCommit) proof =
         some root ∧
       txns.length = commitments.length ∧
       ∀ p ∈ txns.zip commitments, hashTxn p.1 = p.2.transaction_hash) ∧
    (∀ (α : Type) (hashTxn : α → Nat)
       (hashCommit : TransactionCommitment → Nat)
       (recompute : Nat → List Nat → AccumulatorRangeProof → Option Nat)
       (root : Nat) (txns : List α)
       (commitments : List TransactionCommitment)
       (proof : AccumulatorRangeProof),
       recompute proof.first_index (commitments.map hashCommit) proof ≠
         some root →
       verifiedTxFetch hashTxn hashCommit recompute root txns commitments
         proof = .error .ProofVerificationFailed) ∧
    (∀ (α : Type) (hashTxn : α → Nat)
       (hashCommit : TransactionCommitment → Nat)
       (recompute : Nat → List Nat → AccumulatorRangeProof → Option Nat)
       (root : Nat) (txns : List α)
       (commitments : List TransactionCommitment)
       (proof : AccumulatorRangeProof),
       recompute proof.first_index (commitments.map hashCommit) proof =
         some root →
       ¬(txns.length = commitments.length ∧
         ∀ p ∈ txns.zip commitments, hashTxn p.1 = p.2.transaction_hash) →
       verifiedTxFetch hashTxn hashCommit recompute root txns commitments
         proof = .error .TransactionHashMismatch) := by
  refine ⟨?_, ?_, ?_⟩
  · intro α hashTxn hashCommit recompute root txns commitments proof out h
    unfold verifiedTxFetch verifyRangeProof at h
    by_cases hr : recompute proof.first_index (commitments.map hashCommit)
        proof = some root
    · rw [if_pos hr] at h
      rcases verifyTxnHashes_ok_or_mismatch hashTxn txns commitments with
        hok | herr
      · rw [hok] at h
        injection h with h
        obtain ⟨hl, hp⟩ := (verifyTxnHashes_ok_iff hashTxn txns
          commitments).mp hok
        exact ⟨h.symm, hr, hl, hp⟩
      · rw [herr] at h
        exact Except.noConfusion h
    · rw [if_neg hr] at h
      exact Except.noConfusion h
  · intro α hashTxn hashCommit recompute root txns commitments proof hr
    unfold verifiedTxFetch verifyRangeProof
    rw [if_neg hr]
  · intro α hashTxn hashCommit recompute root txns commitments proof hr hmm
    unfold verifiedTxFetch verifyRangeProof
    rw [if_pos hr]
    rcases verifyTxnHashes_ok_or_mismatch hashTxn txns commitments with
      hok | herr
    · exact absurd ((verifyTxnHashes_ok_iff hashTxn txns commitments).mp hok)
        hmm
    · rw [herr]

/-- C3 witness: a one-transaction fetch whose hash and root both match is
released as-is; a root mismatch fails with `ProofVerificationFailed`; a
body-hash mismatch with a passing root proof fails with
`TransactionHashMismatch`. -/
theorem claim_verified_fetch_checks_witness :
    (([5] : List Nat) = [5] ∧
     (some 7 : Option Nat) = some 7 ∧
     ([5] : List Nat).length =
       [(⟨5, 0, 0, 0, 0⟩ : TransactionCommitment)].length ∧
     ∀ p ∈ ([5] : List Nat).zip [(⟨5, 0, 0, 0, 0⟩ : TransactionCommitment)],
       p.1 = p.2.transaction_hash) ∧
    verifiedTxFetch (fun (t : Nat) => t) (fun c => c.transaction_hash)
      (fun _ _ _ => none) 7 [5] [⟨5, 0, 0, 0, 0⟩] ⟨[], 0, 1⟩ =
      .error .ProofVerificationFailed ∧
    verifiedTxFetch (fun (t : Nat) => t) (fun c => c.transaction_hash)
      (fun _ _ _ => some 7) 7 [5] [⟨6, 0, 0, 0, 0⟩] ⟨[], 0, 1⟩ =
      .error .TransactionHashMismatch :=
  ⟨claim_verified_fetch_checks.1 Nat (fun t => t)
     (fun c => c.transaction_hash) (fun _ _ _ => some 7) 7 [5]
     [⟨5, 0, 0, 0, 0⟩] ⟨[], 0, 1⟩ [5] (by rfl),
   claim_verified_fetch_checks.2.1 Nat (fun t => t)
     (fun c => c.transaction_hash) (fun _ _ _ => none) 7 [5]
     [⟨5, 0, 0, 0, 0⟩] ⟨[], 0, 1⟩ (by decide),
   claim_verified_fetch_checks.2.2 Nat (fun t => t)
     (fun c => c.transaction_hash) (fun _ _ _ => some 7) 7 [5]
     [⟨6, 0, 0, 0, 0⟩] ⟨[], 0, 1⟩ (by rfl) (by decide)⟩

/-- C4 counterexample: with a waypoint supplied, successful client
construction and validator connection but a failing trusted-connection
check (a verification failure), the binary prints "Proofs did not
validate" and still returns normally — process exit status 0, not
nonzero. -/
theorem claim_cli_nonzero_exit_counterexample :
    mainRun ⟨"http://node", some ⟨0, 0⟩⟩ ⟨true, some ⟨7, 9⟩, false⟩ =
      .exited 0 [.workingOn "http://node" ⟨0, 0⟩, .proofsNotValidated,
                 .chainIdLine, .trustedStateLine, .ledgerInfoLine,
                 .cliInfo "http://node" 7 9] := rfl

/-- C4 (amended): when the verifying client binary is run with a waypoint,
client construction succeeds and the validator connection succeeds, it
prints the URL and waypoint, runs the trusted-connection check (fetch the
latest state proof and ratchet from the waypoint), prints whether the
proofs validated, prints the diagnostic lines, and returns normally with
exit status 0 regardless of whether verification failed; a nonzero status
arises only from the panics on a missing waypoint, failed client
construction or failed validator connection. -/
theorem claim_cli_flow_amended :
    ∀ (args : Args) (env : RemoteEnv) (wp : Waypoint) (bm : BlockMetadata),
      args.waypoint = some wp → env.clientProxyNew = true →
      env.validatorConnection = some bm →
      mainRun args env =
        .exited 0 [.workingOn args.url wp,
                   (if env.trustedConnectionOk then .proofsValidated
                    else .proofsNotValidated),
                   .chainIdLine, .trustedStateLine, .ledgerInfoLine,
                   .cliInfo args.url bm.version bm.timestamp] := by
  intro args env wp bm hwp hnew hconn
  unfold mainRun
  rw [hwp, hnew, hconn]
  simp

/-- C4 witness: the amended flow at a concrete run that validates and one
that does not. -/
theorem claim_cli_flow_amended_witness :
    mainRun ⟨"u", some ⟨1, 2⟩⟩ ⟨true, some ⟨3, 4⟩, true⟩ =
      .exited 0 [.workingOn "u" ⟨1, 2⟩,
                 (if true then .proofsValidated else .proofsNotValidated),
                 .chainIdLine, .trustedStateLine, .ledgerInfoLine,
                 .cliInfo "u" 3 4] :=
  claim_cli_flow_amended ⟨"u", some ⟨1, 2⟩⟩ ⟨true, some ⟨3, 4⟩, true⟩
    ⟨1, 2⟩ ⟨3, 4⟩ rfl rfl rfl

/-- C9: started without the `--waypoint` flag, the binary panics on
unwrapping the absent optional waypoint, with nothing printed — and the
outcome is identical whatever the remote world looks like, i.e. before any
connection to a server is attempted — rather than reporting a usage error
or proceeding without a trust anchor. -/
theorem claim_cli_missing_waypoint_panics :
    ∀ (args : Args) (env env' : RemoteEnv), args.waypoint = none →
      mainRun args env = .panicked .unwrapWaypoint [] ∧
      mainRun args env = mainRun args env' := by
  intro args env env' h
  unfold mainRun
  rw [h]
  exact ⟨rfl, rfl⟩

/-- C9 witness: a concrete argument vector with no waypoint panics at the
unwrap, independently of two different remote environments. -/
theorem claim_cli_missing_waypoint_panics_witness :
    mainRun ⟨"u", none⟩ ⟨true, some ⟨3, 4⟩, true⟩ =
      .panicked .unwrapWaypoint [] ∧
    mainRun ⟨"u", none⟩ ⟨true, some ⟨3, 4⟩, true⟩ =
      mainRun ⟨"u", none⟩ ⟨false, none, false⟩ :=
  claim_cli_missing_waypoint_panics ⟨"u", none⟩ ⟨true, some ⟨3, 4⟩, true⟩
    ⟨false, none, false⟩ rfl

/-- C5: whenever the JSON-RPC client can be constructed for the url,
`LibraVerifClient::new(url, waypoint)` returns a client whose
trusted_state is exactly the state seeded from the waypoint — the
`Anchored` initial state, with no other verification performed — and whose
latest_epoch_change_li is `None`. -/
theorem claim_client_new_seeds_waypoint :
    ∀ (mkClient : String → Option JsonRpcClient) (url : String)
      (wp : Waypoint) (c : JsonRpcClient),
      mkClient url = some c →
      LibraVerifClient.new mkClient url wp =
        some ⟨c, TrustedState.fromWaypoint wp, none⟩ ∧
      TrustedState.fromWaypoint wp = .anchored wp := by
  intro mkClient url wp c h
  unfold LibraVerifClient.new
  rw [h]
  exact ⟨rfl, rfl⟩

/-- C5 witness: a concrete constructible client is seeded from the
waypoint with no epoch change ledger info. -/
theorem claim_client_new_seeds_waypoint_witness :
    LibraVerifClient.new (fun u => some ⟨u⟩) "http://node" ⟨3, 4⟩ =
      some ⟨⟨"http://node"⟩, TrustedState.fromWaypoint ⟨3, 4⟩, none⟩ ∧
    TrustedState.fromWaypoint ⟨3, 4⟩ = .anchored ⟨3, 4⟩ :=
  claim_client_new_seeds_waypoint (fun u => some ⟨u⟩) "http://node" ⟨3, 4⟩
    ⟨"http://node"⟩ rfl

/-- C6: the conversion of (LedgerInfoWithSignatures, EpochChangeProof,
AccumulatorConsistencyProof) to StateProofView succeeds exactly when all
three LCS serializations succeed, and the result carries exactly the
fields ledger_info_with_signatures, epoch_change_proof and
ledger_consistency_proof, each the hex encoding of the LCS serialization
of the corresponding input. -/
theorem claim_state_proof_view_hex :
    ∀ (α β γ : Type) (serLi : α → Option (List (Fin 256)))
      (serEcp : β → Option (List (Fin 256)))
      (serCp : γ → Option (List (Fin 256))) (li : α) (ecp : β) (cp : γ),
      ((StateProofView.tryFrom serLi serEcp serCp li ecp cp).isSome ↔
        ((serLi li).isSome ∧ (serEcp ecp).isSome ∧ (serCp cp).isSome)) ∧
      (∀ (a b c : List (Fin 256)),
        serLi li = some a → serEcp ecp = some b → serCp cp = some c →
        StateProofView.tryFrom serLi serEcp serCp li ecp cp =
          some ⟨⟨hexEncode a⟩, ⟨hexEncode b⟩, ⟨hexEncode c⟩⟩) := by
  intro α β γ serLi serEcp serCp li ecp cp
  constructor
  · unfold StateProofView.tryFrom
    cases serLi li <;> cases serEcp ecp <;> cases serCp cp <;> simp
  · intro a b c ha hb hc
    unfold StateProofView.tryFrom
    rw [ha, hb, hc]
    rfl

/-- C6 witness: with concrete serializers, the conversion is the hex
encoding of each serialization, and solvability matches the serializers'
success. -/
theorem claim_state_proof_view_hex_witness :
    ((StateProofView.tryFrom (fun (_ : Nat) => some [(0 : Fin 256)])
        (fun (_ : Nat) => some [(1 : Fin 256)])
        (fun (_ : Nat) => some [(2 : Fin 256)]) 10 20 30).isSome ↔
      ((some [(0 : Fin 256)]).isSome ∧ (some [(1 : Fin 256)]).isSome ∧
       (some [(2 : Fin 256)]).isSome)) ∧
    StateProofView.tryFrom (fun (_ : Nat) => some [(0 : Fin 256)])
        (fun (_ : Nat) => some [(1 : Fin 256)])
        (fun (_ : Nat) => some [(2 : Fin 256)]) 10 20 30 =
      some ⟨⟨hexEncode [0]⟩, ⟨hexEncode [1]⟩, ⟨hexEncode [2]⟩⟩ :=
  ⟨(claim_state_proof_view_hex Nat Nat Nat (fun _ => some [0])
      (fun _ => some [1]) (fun _ => some [2]) 10 20 30).1,
   (claim_state_proof_view_hex Nat Nat Nat (fun _ => some [0])
      (fun _ => some [1]) (fun _ => some [2]) 10 20 30).2 [0] [1] [2]
      rfl rfl rfl⟩

/-- C7: the get_transactions_with_proofs response type carries exactly an
optional first_transaction_version, a list serialized_transactions of
hex-encoded transaction serializations, a hex-encoded ledger_info, and a
proofs record containing exactly ledger_info_to_transaction_infos_proof
and transaction_infos (two views are equal exactly when those fields
agree); and for every request the returned first_transaction_version
equals the requested base_version. -/
theorem claim_txns_with_proofs_shape :
    (∀ (v w : TransactionsWithProofsView),
       v = w ↔ (v.first_transaction_version = w.first_transaction_version ∧
                v.serialized_transactions = w.serialized_transactions ∧
                v.ledger_info = w.ledger_info ∧ v.proofs = w.proofs)) ∧
    (∀ (p q : TransactionsProofsView),
       p = q ↔ (p.ledger_info_to_transaction_infos_proof =
                  q.ledger_info_to_transaction_infos_proof ∧
                p.transaction_infos = q.transaction_infos)) ∧
    (∀ (τ α π ι : Type) (serTx : τ → List (Fin 256))
       (serLi : α → List (Fin 256)) (serProof : π → List (Fin 256))
       (serInfos : ι → List (Fin 256)) (base_version : Nat) (txs : List τ)
       (li : α) (rangeProof : π) (infos : ι),
       (getTransactionsWithProofsResponse serTx serLi serProof serInfos
          base_version txs li rangeProof infos).first_transaction_version =
         some base_version ∧
       (getTransactionsWithProofsResponse serTx serLi serProof serInfos
          base_version txs li rangeProof infos).serialized_transactions =
         txs.map (fun t => ⟨hexEncode (serTx t)⟩) ∧
       (getTransactionsWithProofsResponse serTx serLi serProof serInfos
          base_version txs li rangeProof infos).ledger_info =
         ⟨hexEncode (serLi li)⟩ ∧
       (getTransactionsWithProofsResponse serTx serLi serProof serInfos
          base_version txs li rangeProof infos).proofs =
         ⟨⟨hexEncode (serProof rangeProof)⟩, ⟨hexEncode (serInfos infos)⟩⟩) := by
  refine ⟨?_, ?_, ?_⟩
  · intro v w
    cases v
    cases w
    simp [TransactionsWithProofsView.mk.injEq]
  · intro p q
    cases p
    cases q
    simp [TransactionsProofsView.mk.injEq]
  · intro τ α π ι serTx serLi serProof serInfos base_version txs li
      rangeProof infos
    exact ⟨rfl, rfl, rfl, rfl⟩

/-- C7 witness: the field-exactness equivalences and the
first_transaction_version equation at concrete values. -/
theorem claim_txns_with_proofs_shape_witness :
    ((⟨some 1, [], ⟨"aa"⟩, ⟨⟨"bb"⟩, ⟨"cc"⟩⟩⟩ : TransactionsWithProofsView) =
       ⟨some 1, [], ⟨"aa"⟩, ⟨⟨"bb"⟩, ⟨"cc"⟩⟩⟩ ↔
       ((some 1 : Option Nat) = some 1 ∧ ([] : List BytesView) = [] ∧
        (⟨"aa"⟩ : BytesView) = ⟨"aa"⟩ ∧
        (⟨⟨"bb"⟩, ⟨"cc"⟩⟩ : TransactionsProofsView) = ⟨⟨"bb"⟩, ⟨"cc"⟩⟩)) ∧
    (getTransactionsWithProofsResponse (fun (t : Nat) => [⟨t % 256, by omega⟩])
       (fun (_ : Nat) => []) (fun (_ : Nat) => []) (fun (_ : Nat) => [])
       10 [5] 0 0 0).first_transaction_version = some 10 :=
  ⟨claim_txns_with_proofs_shape.1 ⟨some 1, [], ⟨"aa"⟩, ⟨⟨"bb"⟩, ⟨"cc"⟩⟩⟩
     ⟨some 1, [], ⟨"aa"⟩, ⟨⟨"bb"⟩, ⟨"cc"⟩⟩⟩,
   (claim_txns_with_proofs_shape.2.2 Nat Nat Nat Nat
      (fun t => [⟨t % 256, by omega⟩]) (fun _ => []) (fun _ => [])
      (fun _ => []) 10 [5] 0 0 0).1⟩

theorem hexCharVal_hexDigitChar :
    ∀ (n : Fin 16), hexCharVal (hexDigitChar n.val) = some n := by
  decide

theorem hexDecodeChars_byteToHex_append (b : Fin 256) (tail : List Char)
    (bs : List (Fin 256)) (ih : hexDecodeChars tail = some bs) :
    hexDecodeChars (byteToHex b ++ tail) = some (b :: bs) := by
  have hb := b.isLt
  have h1 : b.val / 16 < 16 := by omega
  have h2 : b.val % 16 < 16 := by omega
  have e1 : hexCharVal (hexDigitChar (b.val / 16)) = some ⟨b.val / 16, h1⟩ :=
    hexCharVal_hexDigitChar ⟨b.val / 16, h1⟩
  have e2 : hexCharVal (hexDigitChar (b.val % 16)) = some ⟨b.val % 16, h2⟩ :=
    hexCharVal_hexDigitChar ⟨b.val % 16, h2⟩
  have hsh : byteToHex b ++ tail =
      hexDigitChar (b.val / 16) :: hexDigitChar (b.val % 16) :: tail := rfl
  rw [hsh]
  simp only [hexDecodeChars, e1, e2, ih]
  have hby : mkByte ⟨b.val / 16, h1⟩ ⟨b.val % 16, h2⟩ = b := by
    apply Fin.ext
    simp only [mkByte]
    omega
  rw [hby]

theorem hexDecodeChars_hexEncode (bs : List (Fin 256)) :
    hexDecodeChars (bs.flatMap byteToHex) = some bs := by
  induction bs with
  | nil => rfl
  | cons b bs ih =>
      rw [List.flatMap_cons]
      exact hexDecodeChars_byteToHex_append b _ bs ih

/-- C8: hex encoding of binary fields round-trips — for every byte vector
b, `BytesView::from(b).into_bytes()` returns b — and `BytesView::from` is
a deterministic function, so equal byte vectors always produce equal hex
views. -/
theorem claim_bytes_view_roundtrip :
    (∀ b : List (Fin 256), (BytesView.fromBytes b).into_bytes = some b) ∧
    (∀ b1 b2 : List (Fin 256), b1 = b2 →
      BytesView.fromBytes b1 = BytesView.fromBytes b2) := by
  constructor
  · intro b
    show hexDecode (hexEncode b) = some b
    show hexDecodeChars (b.flatMap byteToHex) = some b
    exact hexDecodeChars_hexEncode b
  · intro b1 b2 h
    rw [h]

/-- C8 witness: the round trip on a concrete byte vector, and determinism
on equal inputs. -/
theorem claim_bytes_view_roundtrip_witness :
    (BytesView.fromBytes [0, 15, 16, 171, 255]).into_bytes =
      some [0, 15, 16, 171, 255] ∧
    BytesView.fromBytes [0, 15, 16, 171, 255] =
      BytesView.fromBytes [0, 15, 16, 171, 255] :=
  ⟨claim_bytes_view_roundtrip.1 [0, 15, 16, 171, 255],
   claim_bytes_view_roundtrip.2 [0, 15, 16, 171, 255] [0, 15, 16, 171, 255]
     rfl⟩

/-- C10: converting a ContractEvent whose type tag matches none of the
known event struct tags always succeeds and yields `Unknown {}`; the
conversion returns an error only for a recognized type tag whose payload
fails to parse — including a BaseUrlRotationEvent whose new_base_url is
not valid UTF-8. -/
theorem claim_event_view_unknown_total :
    (∀ (utf8 : List (Fin 256) → Option String) (ev : ContractEvent),
       recognizedTag ev.type_tag = false →
       EventDataView.tryFrom utf8 ev = some .unknown) ∧
    (∀ (utf8 : List (Fin 256) → Option String) (ev : ContractEvent),
       EventDataView.tryFrom utf8 ev = none →
       recognizedTag ev.type_tag = true ∧ payloadParseFails utf8 ev) ∧
    (∀ (utf8 : List (Fin 256) → Option String) (ev : ContractEvent)
       (d : BaseUrlRotationEventData),
       ev.type_tag = .baseUrlRotation →
       ev.parseBaseUrlRotation = some d → utf8 d.new_base_url = none →
       EventDataView.tryFrom utf8 ev = none) := by
  refine ⟨?_, ?_, ?_⟩
  · intro utf8 ev h
    cases htag : ev.type_tag <;>
      simp_all [EventDataView.tryFrom, recognizedTag]
  · intro utf8 ev h
    cases htag : ev.type_tag
    case receivedPayment =>
      simp only [EventDataView.tryFrom, htag, Option.map_eq_none'] at h
      exact ⟨by simp [recognizedTag, htag], by simp [payloadParseFails, htag, h]⟩
    case sentPayment =>
      simp only [EventDataView.tryFrom, htag, Option.map_eq_none'] at h
      exact ⟨by simp [recognizedTag, htag], by simp [payloadParseFails, htag, h]⟩
    case preburnTag =>
      simp only [EventDataView.tryFrom, htag, Option.map_eq_none'] at h
      exact ⟨by simp [recognizedTag, htag], by simp [payloadParseFails, htag, h]⟩
    case burnTag =>
      simp only [EventDataView.tryFrom, htag, Option.map_eq_none'] at h
      exact ⟨by simp [recognizedTag, htag], by simp [payloadParseFails, htag, h]⟩
    case cancelBurnTag =>
      simp only [EventDataView.tryFrom, htag, Option.map_eq_none'] at h
      exact ⟨by simp [recognizedTag, htag], by simp [payloadParseFails, htag, h]⟩
    case toLBRExchangeRateUpdate =>
      simp only [EventDataView.tryFrom, htag, Option.map_eq_none'] at h
      exact ⟨by simp [recognizedTag, htag], by simp [payloadParseFails, htag, h]⟩
    case mintTag =>
      simp only [EventDataView.tryFrom, htag, Option.map_eq_none'] at h
      exact ⟨by simp [recognizedTag, htag], by simp [payloadParseFails, htag, h]⟩
    case receivedMint =>
      simp only [EventDataView.tryFrom, htag, Option.map_eq_none'] at h
      exact ⟨by simp [recognizedTag, htag], by simp [payloadParseFails, htag, h]⟩
    case complianceKeyRotation =>
      simp only [EventDataView.tryFrom, htag, Option.map_eq_none'] at h
      exact ⟨by simp [recognizedTag, htag], by simp [payloadParseFails, htag, h]⟩
    case baseUrlRotation =>
      refine ⟨by simp [recognizedTag, htag], ?_⟩
      simp only [EventDataView.tryFrom, htag] at h
      cases hp : ev.parseBaseUrlRotation with
      | none => simp [payloadParseFails, htag, hp]
      | some d =>
        rw [hp, Option.map_eq_none'] at h
        simp only [payloadParseFails, htag]
        exact Or.inr ⟨d, hp, h⟩
    case newBlock =>
      simp only [EventDataView.tryFrom, htag, Option.map_eq_none'] at h
      exact ⟨by simp [recognizedTag, htag], by simp [payloadParseFails, htag, h]⟩
    case newEpoch =>
      simp only [EventDataView.tryFrom, htag, Option.map_eq_none'] at h
      exact ⟨by simp [recognizedTag, htag], by simp [payloadParseFails, htag, h]⟩
    case createAccount =>
      simp only [EventDataView.tryFrom, htag, Option.map_eq_none'] at h
      exact ⟨by simp [recognizedTag, htag], by simp [payloadParseFails, htag, h]⟩
    case upgradeTag =>
      simp only [EventDataView.tryFrom, htag, Option.map_eq_none'] at h
      exact ⟨by simp [recognizedTag, htag], by simp [payloadParseFails, htag, h]⟩
    case other n =>
      simp only [EventDataView.tryFrom, htag] at h
      exact Option.noConfusion h
  · intro utf8 ev d htag hp hu
    simp [EventDataView.tryFrom, htag, hp, hu]

/-- C10 witness: a concrete event with an unrecognized tag converts to
`Unknown {}`; a concrete BaseUrlRotationEvent whose url bytes fail the
UTF-8 decoder makes the conversion fail, and that failure is classified as
a recognized tag with a failing payload. -/
theorem claim_event_view_unknown_total_witness :
    EventDataView.tryFrom (fun _ => none)
      ⟨.other 0, [], none, none, none, none, none, none, none, none, none,
       none, none, none, none, none⟩ = some .unknown ∧
    (recognizedTag EventTypeTag.baseUrlRotation = true ∧
     payloadParseFails (fun _ => none)
       ⟨.baseUrlRotation, [], none, none, none, none, none, none, none,
        none, none, some ⟨[0], 3⟩, none, none, none, none⟩) ∧
    EventDataView.tryFrom (fun _ => none)
      ⟨.baseUrlRotation, [], none, none, none, none, none, none, none,
       none, none, some ⟨[0], 3⟩, none, none, none, none⟩ = none :=
  ⟨claim_event_view_unknown_total.1 (fun _ => none)
     ⟨.other 0, [], none, none, none, none, none, none, none, none, none,
      none, none, none, none, none⟩ rfl,
   claim_event_view_unknown_total.2.1 (fun _ => none)
     ⟨.baseUrlRotation, [], none, none, none, none, none, none, none,
      none, none, some ⟨[0], 3⟩, none, none, none, none⟩ rfl,
   claim_event_view_unknown_total.2.2 (fun _ => none)
     ⟨.baseUrlRotation, [], none, none, none, none, none, none, none,
      none, none, some ⟨[0], 3⟩, none, none, none, none⟩ ⟨[0], 3⟩
     rfl rfl rfl⟩
